import Mathlib

/-!
Shallow embedding of `src/server/pages/api/account.ts` and the
`refreshApikey`/`setApikey` part of `src/server/components/AppContext.tsx`
from the kyrolabs/rebuff repository, together with theorems settling the
frozen claims about the account-provisioning core.

Modelling conventions:
* the two persistent relations (`accounts`, `credits`) are lists of rows;
  a `Store` value is threaded through explicitly;
* supabase-js response payloads are modelled by `JsValue`, a JS-like value
  type, so that the source's duck-typed shape checks
  (`Array.isArray(data)`, truthiness, `data[0].credits`) are embedded
  faithfully rather than idealised;
* the draw from the secure random source (`randomBytes`) is a parameter
  (`freshKey` / the byte list given to `generateApiKey`);
* every database round-trip performed by a call is recorded in a `DbOp`
  trace so that "performs no write / does not read X" properties are
  statable;
* store-level infrastructure failures (network, outage) are not modelled:
  the only insert error the store model produces is the unique-key
  conflict, and the idempotent credits upsert never errors, so the
  source's `creditsErr` branch (lines 141-144) has no reachable
  counterpart.
-/

/-- JS-like runtime value, used for supabase response payloads and for
`req.query.slug` (which in Next.js is `string | string[] | undefined`). -/
inductive JsValue where
  | null
  | undefined
  | str (s : String)
  | int (n : Int)
  | obj (fields : List (String × JsValue))
  | arr (elems : List JsValue)

/-- Array.isArray. -/
def JsValue.isArray : JsValue → Bool
  | .arr _ => true
  | _ => false

/-- JS truthiness of the values this model produces. -/
def JsValue.truthy : JsValue → Bool
  | .null => false
  | .undefined => false
  | .str s => !(s == "")
  | .int n => !(n == 0)
  | .obj _ => true
  | .arr _ => true

/-- Property access `v[k]`; a missing field reads as `undefined`.  On the
reachable paths of the embedded code, access on `null`/`undefined` (a JS
TypeError) never happens because of short-circuit evaluation, so it is
mapped to `undefined` here. -/
def JsValue.get : JsValue → String → JsValue
  | .obj fields, k => ((fields.find? (fun p => p.1 == k)).map Prod.snd).getD .undefined
  | _, _ => .undefined

/-- Index access `v[i]` for arrays; anything else reads as `undefined`. -/
def JsValue.index : JsValue → Nat → JsValue
  | .arr xs, i => (xs.get? i).getD .undefined
  | _, _ => .undefined

/-- JS `.length` of an array value. -/
def JsValue.length : JsValue → Nat
  | .arr xs => xs.length
  | _ => 0

/-- JS strict equality `v === s` against a string literal. -/
def JsValue.strictEqStr : JsValue → String → Bool
  | .str s, t => s == t
  | _, _ => false

/-- Coercion used when the code reads a string field it has checked truthy. -/
def JsValue.asString : JsValue → String
  | .str s => s
  | _ => ""

/-- Coercion used when the code reads a numeric field. -/
def JsValue.asInt : JsValue → Int
  | .int n => n
  | _ => 0

/-- Row of the `accounts` relation: `{id, apikey, name}`. -/
structure AccountRow where
  id : String
  apikey : String
  name : String
deriving DecidableEq

/-- Row of the `credits` relation: `{id, total_credits_cents}`. -/
structure CreditRow where
  id : String
  total_credits_cents : Int
deriving DecidableEq

/-- The persistent store: the two keyed relations used by account.ts. -/
structure Store where
  accounts : List AccountRow
  credits : List CreditRow
deriving DecidableEq

/-- The flat state object `{apikey, credits}` that account.ts assembles
and returns (the spec's Provisioned State). -/
structure AppState where
  apikey : String
  credits : Int
deriving DecidableEq

/-- The verified principal handed over by the identity provider. -/
structure User where
  id : String
  email : String
deriving DecidableEq

/-- Database round-trips issued by the embedded code, in order. -/
inductive DbOp where
  | readAccounts (userId : String)
  | insertAccounts (userId : String) (apikey : String) (name : String)
  | upsertCredits (userId : String) (cents : Int)
deriving DecidableEq

/-- Lines 99-103: `supabaseAdminClient.from("accounts").select("apikey")
.eq("id", user.id).single()`.  With `.single()`, supabase-js returns the
one matching row as a plain object holding exactly the selected columns,
or `null` (plus an error) when no row matches; it never returns an
array. -/
def selectApikeySingle (s : Store) (userId : String) : JsValue :=
  match s.accounts.find? (fun r => r.id == userId) with
  | some r => .obj [("apikey", .str r.apikey)]
  | none => .null

/-- Lines 97-117, `getAppStateForUser`: run the single-row select and
validate its shape exactly as the source does (line 108:
`!Array.isArray(data) || !data[0].apikey`; line 111:
`Array.isArray(data[0].credits) || !data[0].credits`), then assemble the
state object from `data[0]`. -/
def getAppStateForUser (s : Store) (userId : String) : Except String AppState :=
  let data := selectApikeySingle s userId
  if !data.isArray || !((data.index 0).get "apikey").truthy then
    .error "No account found"
  else if ((data.index 0).get "credits").isArray
      || !((data.index 0).get "credits").truthy then
    .error "No credits found"
  else
    .ok { apikey := ((data.index 0).get "apikey").asString,
          credits := (((data.index 0).get "credits").get "total_credits_cents").asInt }

/-- Lines 127-130: `.from("accounts").insert([{id, apikey, name}])`.
The `accounts` relation is keyed on `id`, so inserting an existing id
reports the unique-key conflict instead of overwriting. -/
def insertAccounts (s : Store) (row : AccountRow) : Except String Store :=
  if s.accounts.any (fun r => r.id == row.id) then
    .error "duplicate key value violates unique constraint"
  else
    .ok { s with accounts := s.accounts ++ [row] }

/-- Lines 135-140: `.from("credits").upsert({id, total_credits_cents},
{onConflict: "id", ignoreDuplicates: true})`.  With `ignoreDuplicates`
set, a conflicting row is left untouched and the call succeeds. -/
def upsertCredits (s : Store) (userId : String) (cents : Int) : Store :=
  if s.credits.any (fun r => r.id == userId) then s
  else { s with credits := s.credits ++ [{ id := userId, total_credits_cents := cents }] }

/-- Lines 118-146, `getAppStateFromDb`: try the read; on any thrown
error fall through to the creation path (insert the account row with a
freshly generated apikey, upsert the credits row with 1000 cents, then
re-read).  Returns the result together with the final store and the
trace of database operations attempted. -/
def getAppStateFromDb (s : Store) (user : User) (freshKey : String) :
    Except String AppState × Store × List DbOp :=
  match getAppStateForUser s user.id with
  | .ok st => (.ok st, s, [.readAccounts user.id])
  | .error _ =>
    match insertAccounts s { id := user.id, apikey := freshKey, name := user.email } with
    | .error _ =>
      (.error "Error creating account", s,
        [.readAccounts user.id, .insertAccounts user.id freshKey user.email])
    | .ok s1 =>
      let s2 := upsertCredits s1 user.id 1000
      (getAppStateForUser s2 user.id, s2,
        [.readAccounts user.id, .insertAccounts user.id freshKey user.email,
         .upsertCredits user.id 1000, .readAccounts user.id])

/-- HTTP request shape seen by the handler: `req.method` (`""` when the
method is absent, mirroring `req.method || ""`) and `req.query.slug`
(`undefined` when absent). -/
structure Req where
  method : String
  slug : JsValue

/-- The distinct responses the handler can produce. -/
inductive HandlerResult where
  | methodNotAllowed
  | notAuthenticated
  | appStateOk (st : AppState)
  | serverError
  | apikeyOk (apikey : String)
  | notFound
deriving DecidableEq

/-- Lines 38-96, `handler`: method gate, session and user checks, then
dispatch to the get-state path (`GET` without a truthy slug), the
rotate-credential path (`POST` with slug exactly `["apikey"]`), or 404.
`hasSession` and `user` model the two auth-helper lookups; `freshKey`
models the `generateApiKey()` draw used by whichever path runs. -/
def handler (s : Store) (req : Req) (hasSession : Bool) (user : Option User)
    (freshKey : String) : HandlerResult × Store × List DbOp :=
  if !(req.method == "POST" || req.method == "GET") then
    (.methodNotAllowed, s, [])
  else if !hasSession then
    (.notAuthenticated, s, [])
  else
    match user with
    | none => (.notAuthenticated, s, [])
    | some u =>
      if req.method == "GET" && !req.slug.truthy then
        match getAppStateFromDb s u freshKey with
        | (.ok st, s2, ops) => (.appStateOk st, s2, ops)
        | (.error _, s2, ops) => (.serverError, s2, ops)
      else if req.method == "POST" && req.slug.truthy && req.slug.isArray
          && (req.slug.length == 1) && (req.slug.index 0).strictEqStr "apikey" then
        (.apikeyOk freshKey, s, [])
      else
        (.notFound, s, [])

/-- Sample principal used by concrete witnesses and counterexamples. -/
def u1 : User := { id := "p1", email := "p1@example.com" }

/-- Empty store: the state before any provisioning. -/
def store0 : Store := { accounts := [], credits := [] }

/-- Store of an already-provisioned principal `p1` with credential `k1`
and seeded balance 1000. -/
def store1 : Store :=
  { accounts := [{ id := "p1", apikey := "k1", name := "p1@example.com" }],
    credits := [{ id := "p1", total_credits_cents := 1000 }] }

/-- The single-row select never returns an array, so line 108's
`!Array.isArray(data)` guard fires on every store: the read path of
`getAppStateForUser` unconditionally throws "No account found". -/
theorem getAppStateForUser_always_error (s : Store) (userId : String) :
    getAppStateForUser s userId = .error "No account found" := by
  unfold getAppStateForUser selectApikeySingle
  cases s.accounts.find? (fun r => r.id == userId) <;> rfl

/-- When an account row for the principal already exists, the creation
path's insert reports the unique-key conflict and `getAppStateFromDb`
fails with "Error creating account", leaving the store unchanged and
never reaching the credits step. -/
theorem getAppStateFromDb_insert_conflict (s : Store) (u : User) (k : String)
    (h : s.accounts.any (fun r => r.id == u.id) = true) :
    getAppStateFromDb s u k =
      (.error "Error creating account", s,
        [.readAccounts u.id, .insertAccounts u.id k u.email]) := by
  unfold getAppStateFromDb
  rw [getAppStateForUser_always_error]
  unfold insertAccounts
  simp [h]

/-- When no account row for the principal exists, the creation path
inserts the account row, seeds the credits row, and hands back the
result of re-reading the post-write store. -/
theorem getAppStateFromDb_fresh (s : Store) (u : User) (k : String)
    (h : s.accounts.any (fun r => r.id == u.id) = false) :
    getAppStateFromDb s u k =
      (getAppStateForUser
          (upsertCredits { s with accounts := s.accounts ++ [{ id := u.id, apikey := k, name := u.email }] } u.id 1000)
          u.id,
        upsertCredits { s with accounts := s.accounts ++ [{ id := u.id, apikey := k, name := u.email }] } u.id 1000,
        [.readAccounts u.id, .insertAccounts u.id k u.email,
         .upsertCredits u.id 1000, .readAccounts u.id]) := by
  unfold getAppStateFromDb
  rw [getAppStateForUser_always_error]
  unfold insertAccounts
  simp [h]

/-- C1: claimed fast read path for an already-provisioned principal.  At the
concrete provisioned store `store1` the code instead fails: the initial read's
`!Array.isArray(data)` check rejects the `.single()` object, the call falls
into the creation path, and the duplicate account insert aborts it with
"Error creating account" after attempting a store write. -/
theorem c1_bug_exhibit :
    (getAppStateFromDb store1 u1 "k2").1 = .error "Error creating account" ∧
    (getAppStateFromDb store1 u1 "k2").2.2 =
      [.readAccounts "p1", .insertAccounts "p1" "k2" "p1@example.com"] := by
  constructor <;> rfl

/-- C2: claimed post-write re-read of both entities.  On the concrete fresh
principal the creation path's only post-write operation is a single read of
the `accounts` relation (never the `credits` relation), and that read fails,
so no Provisioned State is ever assembled from the persisted values. -/
theorem c2_bug_exhibit :
    (getAppStateFromDb store0 u1 "k2").1 = .error "No account found" ∧
    (getAppStateFromDb store0 u1 "k2").2.2 =
      [.readAccounts "p1", .insertAccounts "p1" "k2" "p1@example.com",
       .upsertCredits "p1" 1000, .readAccounts "p1"] := by
  constructor <;> rfl

/-- C4: lazy creation for a fresh principal.  The two writes do land (the
final store holds exactly one account row and one credits row seeded with
1000), but the call then fails with "No account found" instead of returning
the balance-1000 state, so no successful call exists. -/
theorem c4_bug_exhibit :
    (getAppStateFromDb store0 u1 "k2").1 = .error "No account found" ∧
    (getAppStateFromDb store0 u1 "k2").2.1 =
      { accounts := [{ id := "p1", apikey := "k2", name := "p1@example.com" }],
        credits := [{ id := "p1", total_credits_cents := 1000 }] } := by
  constructor <;> rfl

/-- C3 counterexample: an AlreadyExists conflict from the account insert is
not absorbed as a benign race — at a store already holding the account row
the call fails with "Error creating account" and never proceeds to the
credits (ledger) step. -/
theorem c3_counterexample :
    (getAppStateFromDb store1 u1 "k2").1 = .error "Error creating account" ∧
    DbOp.upsertCredits "p1" 1000 ∉ (getAppStateFromDb store1 u1 "k2").2.2 := by
  constructor
  · rfl
  · decide

/-- C3 amended: whenever the initial read has failed and the account insert
reports a conflict (an account row for the principal already exists), the
call surfaces "Error creating account", leaves the store unchanged, and does
not proceed to the ledger step. -/
theorem c3_amended_conflict_fails (s : Store) (u : User) (k : String)
    (h : s.accounts.any (fun r => r.id == u.id) = true) :
    (getAppStateFromDb s u k).1 = .error "Error creating account" ∧
    (getAppStateFromDb s u k).2.1 = s ∧
    DbOp.upsertCredits u.id 1000 ∉ (getAppStateFromDb s u k).2.2 := by
  rw [getAppStateFromDb_insert_conflict s u k h]
  refine ⟨rfl, rfl, ?_⟩
  simp

/-- C3 witness: the amended statement evaluated at the provisioned store. -/
theorem c3_amended_conflict_fails_witness :
    (getAppStateFromDb store1 u1 "k2").1 = .error "Error creating account" ∧
    (getAppStateFromDb store1 u1 "k2").2.1 = store1 ∧
    DbOp.upsertCredits u1.id 1000 ∉ (getAppStateFromDb store1 u1 "k2").2.2 :=
  c3_amended_conflict_fails store1 u1 "k2" (by decide)

/-- The hexadecimal digit character for one nibble value, lowercase as
Node's `Buffer.toString("hex")` emits it: 0-9 then a-f. -/
def hexDigit (n : Nat) : Char :=
  if n < 10 then Char.ofNat (n + 48) else Char.ofNat (n + 87)

/-- The sixteen hex digit characters in nibble order. -/
def hexChars : List Char := (List.range 16).map hexDigit

/-- Hex encoding of one byte: high nibble then low nibble. -/
def byteToHex (b : Nat) : List Char :=
  [hexChars.getD (b / 16) '0', hexChars.getD (b % 16) '0']

/-- Lines 17-20, `generateApiKey`: `randomBytes(length).toString("hex")`.
The draw from the secure random source is the `bytes` parameter (the
source's `length` argument, default 64, is `bytes.length`). -/
def generateApiKey (bytes : List Nat) : String :=
  String.mk ((bytes.map byteToHex).flatten)

/-- Value of a hex character, inverse of the encoding table. -/
def hexVal (c : Char) : Nat := hexChars.indexOf c

/-- Decode a hex string two characters at a time, inverse of the
per-byte encoding. -/
def decodeHexPairs : List Char → List Nat
  | c1 :: c2 :: rest => (16 * hexVal c1 + hexVal c2) :: decodeHexPairs rest
  | _ => []

set_option maxRecDepth 4096 in
theorem byteToHex_decode (b : Nat) (hb : b < 256) :
    16 * hexVal (hexChars.getD (b / 16) '0') + hexVal (hexChars.getD (b % 16) '0') = b := by
  revert b
  decide

theorem getD_hexChars_mem (i : Nat) : hexChars.getD i '0' ∈ hexChars := by
  rcases Nat.lt_or_ge i hexChars.length with h | h
  · rw [List.getD_eq_get?, List.get?_eq_get h]
    exact List.get_mem hexChars i h
  · rw [List.getD_eq_get?, List.get?_eq_none.mpr h]
    decide

theorem mem_byteToHex_mem_hexChars (b : Nat) (c : Char) (hc : c ∈ byteToHex b) :
    c ∈ hexChars := by
  rcases hc with _ | ⟨_, hc⟩
  · exact getD_hexChars_mem (b / 16)
  · rcases hc with _ | ⟨_, hc⟩
    · exact getD_hexChars_mem (b % 16)
    · cases hc

theorem hexChars_lowercase (c : Char) (hc : c ∈ hexChars) :
    c.isDigit = true ∨ ('a' ≤ c ∧ c ≤ 'f') := by
  have h : ∀ x ∈ hexChars, x.isDigit = true ∨ ('a' ≤ x ∧ x ≤ 'f') := by decide
  exact h c hc

theorem generateApiKey_length (bytes : List Nat) :
    (generateApiKey bytes).length = 2 * bytes.length := by
  show ((bytes.map byteToHex).flatten).length = 2 * bytes.length
  induction bytes with
  | nil => rfl
  | cons b rest ih =>
    have h2 : (byteToHex b).length = 2 := rfl
    simp only [List.map_cons, List.flatten_cons, List.length_append, h2, ih, List.length_cons]
    omega

theorem decodeHexPairs_flatten (bytes : List Nat) (h : ∀ b ∈ bytes, b < 256) :
    decodeHexPairs ((bytes.map byteToHex).flatten) = bytes := by
  induction bytes with
  | nil => rfl
  | cons b rest ih =>
    have hb : b < 256 := h b (List.mem_cons_self b rest)
    have hrest : ∀ x ∈ rest, x < 256 := fun x hx => h x (List.mem_cons_of_mem b hx)
    have step : (List.map byteToHex (b :: rest)).flatten
        = hexChars.getD (b / 16) '0' :: hexChars.getD (b % 16) '0'
          :: (List.map byteToHex rest).flatten := rfl
    rw [step]
    simp only [decodeHexPairs]
    rw [ih hrest, byteToHex_decode b hb]

/-- C5: `generateApiKey` returns the lowercase hexadecimal encoding of its
random bytes: the output has two characters per byte (so 128 characters
for the default 64-byte draw), every character is a decimal digit or a
lowercase a-f, and decoding the output recovers the byte sequence. -/
theorem c5_generateApiKey_hex (bytes : List Nat) (h : ∀ b ∈ bytes, b < 256) :
    (generateApiKey bytes).length = 2 * bytes.length ∧
    (∀ c ∈ (generateApiKey bytes).data, c.isDigit = true ∨ ('a' ≤ c ∧ c ≤ 'f')) ∧
    decodeHexPairs (generateApiKey bytes).data = bytes ∧
    (bytes.length = 64 → (generateApiKey bytes).length = 128) := by
  refine ⟨generateApiKey_length bytes, ?_, decodeHexPairs_flatten bytes h, ?_⟩
  · intro c hc
    rcases List.mem_flatten.mp hc with ⟨l, hl, hcl⟩
    rcases List.mem_map.mp hl with ⟨b, _, rfl⟩
    exact hexChars_lowercase c (mem_byteToHex_mem_hexChars b c hcl)
  · intro h64
    rw [generateApiKey_length bytes, h64]

/-- C5 witness: the concrete 64-byte draw of all-171 bytes encodes to a
128-character lowercase-hex credential that decodes back. -/
theorem c5_generateApiKey_hex_witness :
    (generateApiKey (List.replicate 64 171)).length = 2 * (List.replicate 64 171).length ∧
    (∀ c ∈ (generateApiKey (List.replicate 64 171)).data,
      c.isDigit = true ∨ ('a' ≤ c ∧ c ≤ 'f')) ∧
    decodeHexPairs (generateApiKey (List.replicate 64 171)).data = List.replicate 64 171 ∧
    ((List.replicate 64 171).length = 64 →
      (generateApiKey (List.replicate 64 171)).length = 128) :=
  c5_generateApiKey_hex (List.replicate 64 171) (by decide)

/-- When a credits row for the principal exists, the upsert with
`ignoreDuplicates` leaves the store exactly as it was. -/
theorem upsertCredits_of_exists (s : Store) (userId : String) (cents : Int)
    (h : s.credits.any (fun r => r.id == userId) = true) :
    upsertCredits s userId cents = s := by
  unfold upsertCredits
  rw [h]
  rfl

/-- When no credits row for the principal exists, the upsert appends the
seeded row. -/
theorem upsertCredits_of_not_exists (s : Store) (userId : String) (cents : Int)
    (h : s.credits.any (fun r => r.id == userId) = false) :
    upsertCredits s userId cents
      = { s with credits := s.credits ++ [{ id := userId, total_credits_cents := cents }] } := by
  unfold upsertCredits
  rw [h]
  rfl

/-- C6: the credits creation is an idempotent upsert keyed on the
principal id: running it twice equals running it once, every existing
row survives untouched, and when a row for the principal already exists
the whole store is left exactly as it was (the balance is never
reassigned). -/
theorem c6_upsertCredits_idempotent (s : Store) (userId : String) (cents : Int) :
    upsertCredits (upsertCredits s userId cents) userId cents = upsertCredits s userId cents ∧
    (∀ r ∈ s.credits, r ∈ (upsertCredits s userId cents).credits) ∧
    ((∃ r ∈ s.credits, r.id = userId) → upsertCredits s userId cents = s) := by
  rcases Bool.eq_false_or_eq_true (s.credits.any (fun r => r.id == userId)) with h | h
  · have e1 := upsertCredits_of_exists s userId cents h
    exact ⟨by rw [e1, e1], by rw [e1]; exact fun r hr => hr, fun _ => e1⟩
  · have e1 := upsertCredits_of_not_exists s userId cents h
    have hafter : (({ s with credits := s.credits ++ [{ id := userId, total_credits_cents := cents }] } : Store).credits.any
        (fun r => r.id == userId)) = true := by
      simp [List.any_append]
    have e2 := upsertCredits_of_exists _ userId cents hafter
    refine ⟨by rw [e1, e2], ?_, ?_⟩
    · intro r hr
      rw [e1]
      exact List.mem_append_left _ hr
    · rintro ⟨r, hr, hrid⟩
      have hany : s.credits.any (fun r => r.id == userId) = true :=
        List.any_eq_true.mpr ⟨r, hr, by simp [hrid]⟩
      rw [hany] at h
      simp at h

/-- C6 witness: on the provisioned store the upsert for `p1` is a no-op. -/
theorem c6_upsertCredits_idempotent_witness :
    (∃ r ∈ store1.credits, r.id = "p1") ∧ upsertCredits store1 "p1" 1000 = store1 :=
  ⟨by decide, (c6_upsertCredits_idempotent store1 "p1" 1000).2.2 (by decide)⟩

/-- C7 counterexample: a request with an unsupported method and no
session is rejected with the method-not-allowed result, not the
not-authenticated one — the method gate runs before authentication. -/
theorem c7_counterexample :
    (handler store0 { method := "DELETE", slug := JsValue.undefined } false none "k2").1
      = HandlerResult.methodNotAllowed ∧
    (handler store0 { method := "DELETE", slug := JsValue.undefined } false none "k2").1
      ≠ HandlerResult.notAuthenticated := by
  constructor
  · rfl
  · decide

/-- C7 amended: every GET or POST request without a verified principal
(no session, or no user) gets the not-authenticated result, the store is
untouched and no database operation is attempted. -/
theorem c7_amended_unauthenticated (s : Store) (req : Req) (hasSession : Bool)
    (user : Option User) (k : String)
    (hm : req.method = "GET" ∨ req.method = "POST")
    (hauth : hasSession = false ∨ user = none) :
    handler s req hasSession user k = (.notAuthenticated, s, []) := by
  unfold handler
  have hgate : (!(req.method == "POST" || req.method == "GET")) = false := by
    rcases hm with hm | hm <;> simp [hm]
  rw [hgate]
  simp only [Bool.false_eq_true, if_false]
  rcases hauth with h | h
  · subst h
    rfl
  · subst h
    cases hasSession <;> rfl

/-- C7 witness: the amended statement at a concrete sessionless GET. -/
theorem c7_amended_unauthenticated_witness :
    handler store0 { method := "GET", slug := JsValue.undefined } false none "k2"
      = (.notAuthenticated, store0, []) :=
  c7_amended_unauthenticated store0 { method := "GET", slug := JsValue.undefined } false none "k2"
    (Or.inl rfl) (Or.inl rfl)

/-- C8: an authenticated POST on the `apikey` sub-resource returns the
freshly generated credential and performs no database operation: the
store comes back exactly as it was, with an empty operation trace. -/
theorem c8_apikey_no_write (s : Store) (u : User) (k : String) :
    handler s { method := "POST", slug := JsValue.arr [JsValue.str "apikey"] } true (some u) k
      = (.apikeyOk k, s, []) := rfl

/-- C9 counterexample: a POST with no slug (a shape matching no
supported operation) arriving without a session yields the
not-authenticated result, not the not-found or not-allowed one. -/
theorem c9_counterexample :
    (handler store0 { method := "POST", slug := JsValue.undefined } false none "k2").1
      = HandlerResult.notAuthenticated ∧
    (handler store0 { method := "POST", slug := JsValue.undefined } false none "k2").1
      ≠ HandlerResult.notFound ∧
    (handler store0 { method := "POST", slug := JsValue.undefined } false none "k2").1
      ≠ HandlerResult.methodNotAllowed := by
  refine ⟨rfl, ?_, ?_⟩ <;> decide

/-- C9 amended: a request whose method is neither POST nor GET is
answered with the not-allowed result (before authentication); an
authenticated GET/POST whose shape matches neither the get-state
operation (GET with no truthy slug) nor the rotate-credential operation
(POST with slug exactly `["apikey"]`) is answered with the not-found
result; and the not-allowed, not-found, not-authenticated and
server-failure results are pairwise distinct. -/
theorem c9_amended_dispatch (s : Store) (req : Req) (hasSession : Bool)
    (user : Option User) (k : String) :
    (¬(req.method = "POST" ∨ req.method = "GET") →
      handler s req hasSession user k = (.methodNotAllowed, s, [])) ∧
    (∀ u, user = some u → hasSession = true →
      (req.method = "POST" ∨ req.method = "GET") →
      ¬(req.method = "GET" ∧ req.slug.truthy = false) →
      ¬(req.method = "POST" ∧ req.slug.truthy = true ∧ req.slug.isArray = true
          ∧ req.slug.length = 1 ∧ (req.slug.index 0).strictEqStr "apikey" = true) →
      handler s req hasSession user k = (.notFound, s, [])) ∧
    (HandlerResult.methodNotAllowed ≠ HandlerResult.notFound ∧
      HandlerResult.methodNotAllowed ≠ HandlerResult.notAuthenticated ∧
      HandlerResult.methodNotAllowed ≠ HandlerResult.serverError ∧
      HandlerResult.notFound ≠ HandlerResult.notAuthenticated ∧
      HandlerResult.notFound ≠ HandlerResult.serverError ∧
      HandlerResult.notAuthenticated ≠ HandlerResult.serverError) := by
  refine ⟨?_, ?_, by refine ⟨?_, ?_, ?_, ?_, ?_, ?_⟩ <;> decide⟩
  · intro hm
    have h1 : (req.method == "POST") = false :=
      beq_eq_false_iff_ne.mpr fun h => hm (Or.inl h)
    have h2 : (req.method == "GET") = false :=
      beq_eq_false_iff_ne.mpr fun h => hm (Or.inr h)
    unfold handler
    rw [h1, h2]
    rfl
  · intro u hu hs hm hget hpost
    subst hu
    subst hs
    rcases hm with hp | hg
    · have hcond : (req.method == "POST" && req.slug.truthy && req.slug.isArray
          && (req.slug.length == 1) && (req.slug.index 0).strictEqStr "apikey") = false := by
        cases h1 : req.slug.truthy <;> cases h2 : req.slug.isArray <;>
          cases h3 : req.slug.length == 1 <;>
          cases h4 : (req.slug.index 0).strictEqStr "apikey" <;>
          simp_all [beq_iff_eq]
      simp [handler, hp, hcond]
      intro h1 h2 h3
      cases h4 : (req.slug.index 0).strictEqStr "apikey"
      · rfl
      · exact absurd ⟨hp, h1, h2, h3, h4⟩ hpost
    · have ht : req.slug.truthy = true := by
        cases h : req.slug.truthy
        · exact absurd ⟨hg, h⟩ hget
        · rfl
      simp [handler, hg, ht]

/-- C9 witness: the amended dispatch evaluated at a concrete DELETE (not
allowed) and at a concrete authenticated slug-less POST (not found). -/
theorem c9_amended_dispatch_witness :
    handler store0 { method := "DELETE", slug := JsValue.undefined } true (some u1) "k2"
      = (.methodNotAllowed, store0, []) ∧
    handler store0 { method := "POST", slug := JsValue.undefined } true (some u1) "k2"
      = (.notFound, store0, []) :=
  ⟨(c9_amended_dispatch store0 { method := "DELETE", slug := JsValue.undefined } true (some u1) "k2").1
      (by decide),
    (c9_amended_dispatch store0 { method := "POST", slug := JsValue.undefined } true (some u1) "k2").2.1
      u1 rfl rfl (Or.inl rfl) (by decide) (by decide)⟩

namespace Ui

/-- Attempt/breach counters for one time window, as in `initState`. -/
structure WindowStats where
  attempts : Nat
  breaches : Nat
deriving DecidableEq

/-- The `stats` field shape of the client application state. -/
structure Stats where
  last24h : WindowStats
  last7d : WindowStats
  alltime : WindowStats
deriving DecidableEq

/-- The client-side `AppState` held by `AppContext.tsx` (the shape of
`initState`, lines 13-32). -/
structure AppState where
  apikey : String
  credits : Int
  promptLoading : Bool
  accountLoading : Bool
  stats : Stats
deriving DecidableEq

/-- Lines 161-163, `setApikey`: functional state update
`prev => ({...prev, apikey})`. -/
def setApikey (prev : AppState) (apikey : String) : AppState :=
  { prev with apikey := apikey }

/-- Lines 73-86, `refreshApikey`, restricted to its effect on the
`appState` value: on a successful POST to `/api/account/apikey` it
applies `setApikey` with the fetched `data.apikey`; on a fetch/parse
error it only logs, leaving the state as it was.  (The `setPromptLoading`
toggles touch the provider's separate `promptLoading` React state, not a
field of `appState`.) -/
def refreshApikey (st : AppState) (fetched : Except String String) : AppState :=
  match fetched with
  | .ok apikey => setApikey st apikey
  | .error _ => st

end Ui

/-- C10: `refreshApikey` updates only the `apikey` field of the
application state: `credits`, `stats`, `promptLoading` and
`accountLoading` are unchanged whatever the prior state and whatever the
fetch outcome. -/
theorem c10_refreshApikey_frame (st : Ui.AppState) (fetched : Except String String) :
    (Ui.refreshApikey st fetched).credits = st.credits ∧
    (Ui.refreshApikey st fetched).stats = st.stats ∧
    (Ui.refreshApikey st fetched).promptLoading = st.promptLoading ∧
    (Ui.refreshApikey st fetched).accountLoading = st.accountLoading := by
  cases fetched <;> exact ⟨rfl, rfl, rfl, rfl⟩
